import Mathlib

/-
  Verification development for the Release Synchronization and Repackaging
  Engine of the MCPPlugin repository.  The definitions below are a shallow
  embedding of src/src/plugin_repo_manager.cpp: one byte of a C++ string is
  modelled as one Lean character, std::string as String, size_t arithmetic
  with explicit wrap at 2 ^ 64 where it matters, and fallible operations
  return Option.  Source line numbers are cited next to each definition.
-/

/-- Characters kept verbatim by sanitizeFilename (source lines 80 to 81):
alphanumerics plus dot, dash, underscore and space.  C isalnum in the
default locale agrees with Char.isAlphanum on ASCII bytes. -/
def keepChar (c : Char) : Bool :=
  c.isAlphanum || c == '.' || c == '-' || c == '_' || c == ' '

/-- Per-byte mapping of sanitizeFilename (source lines 78 to 92): kept
characters survive, path separators and every other byte become an
underscore. -/
def sanitizeChar (c : Char) : Char :=
  if keepChar c then c else '_'

/-- Index of the last dot in a character list, mirroring
std::string::find_last_of at source line 97. -/
def findLastDotAux : List Char → Nat → Option Nat
  | [], _ => none
  | c :: cs, i =>
    match findLastDotAux cs (i + 1) with
    | some j => some j
    | none => if c == '.' then some i else none

/-- Index of the last dot, none when the list has no dot. -/
def findLastDot (l : List Char) : Option Nat := findLastDotAux l 0

/-- size_t subtraction: the C++ expression 255 - extension.length() at
source line 101 wraps modulo 2 ^ 64 when the extension is longer than
255 bytes. -/
def sizeTSub (a b : Nat) : Nat :=
  if b ≤ a then a - b else 2 ^ 64 - (b - a)

/-- Length limiting step of sanitizeFilename (source lines 95 to 108):
when the mapped name exceeds 255 bytes, split at the last dot when one
exists at a positive index, truncate the stem to 255 minus the extension
length computed in size_t arithmetic, and reattach the extension;
otherwise truncate to 255 bytes. -/
def truncate255 (l : List Char) : List Char :=
  if l.length > 255 then
    match findLastDot l with
    | some d =>
      if d > 0 then
        let ext := l.drop d
        let nm := l.take d
        let nm2 := if nm.length > sizeTSub 255 ext.length then
            nm.take (sizeTSub 255 ext.length)
          else nm
        nm2 ++ ext
      else l.take 255
    | none => l.take 255
  else l

/-- sanitizeFilename on character lists (source lines 76 to 116): map each
byte, limit the length, and substitute the fixed placeholder when the
result is empty. -/
def sanitizeList (l : List Char) : List Char :=
  let safe := truncate255 (l.map sanitizeChar)
  if safe.isEmpty then "unnamed_file".data else safe

/-- sanitizeFilename (source lines 76 to 116). -/
def sanitizeFilename (s : String) : String := String.mk (sanitizeList s.data)

/-- Input whose trailing extension alone exceeds 255 bytes: the byte a,
a dot, then 300 copies of the byte b (302 bytes in total). -/
def longExtInput : String := String.mk ('a' :: '.' :: List.replicate 300 'b')

/-- Asset platforms (header plugin_manager.h / plugin_repo_manager.h). -/
inductive Platform
  | windows
  | linux
  | unknown
deriving DecidableEq

/-- ReleaseAsset (header): asset name, download URL, derived local path and
platform. -/
structure ReleaseAsset where
  name : String
  download_url : String
  local_path : String
  platform : Platform
deriving DecidableEq

/-- PluginPackageInfo string fields (header lines 28 to 38; the tools
vector carries no strings relevant to persistence and is omitted). -/
structure PluginPackageInfo where
  id : String
  name : String
  version : String
  description : String
  author : String
  release_date : String
  tag_name : String
  local_path : String
deriving DecidableEq

/-- TagInfo (header lines 41 to 47); the std::map of plugin packages is
modelled as an association list ordered as iterated. -/
structure TagInfo where
  tag_name : String
  name : String
  published_at : String
  assets : List ReleaseAsset
  plugin_packages : List (String × PluginPackageInfo)
deriving DecidableEq

/-- The repository root directory constant repo_dir_ (header line 129). -/
def repoDir : String := "plugin_repo/"

/-- fs::path extension: the suffix from the last dot when that dot sits at
a positive index, empty otherwise (dotfiles have no extension). -/
def pathExtension (f : String) : String :=
  match findLastDot f.data with
  | some d => if d > 0 then String.mk (f.data.drop d) else ""
  | none => ""

/-- fs::path stem: the prefix before the last dot when that dot sits at a
positive index, the whole name otherwise. -/
def pathStem (f : String) : String :=
  match findLastDot f.data with
  | some d => if d > 0 then String.mk (f.data.take d) else f
  | none => f

/-- Platform directory chosen at source line 706: windows for a .dll
binary, linux otherwise (the only other accepted extension is .so). -/
def platformDirOf (ext : String) : String :=
  if ext = ".dll" then "windows" else "linux"

/-- repackagePlugins (source lines 674 to 790).  The scratch directory is
given as the list of its regular top-level file names, the clock as the
unix timestamp read at source line 718.  For each platform binary with a
sibling manifest named stem_tools.json the function emits one package
(platform directory, package file name) after the path-length guards at
lines 710, 726 and 734; binaries without a manifest are skipped at line
779.  The function returns true whenever the scan completes, exactly as
the source returns true at line 785 regardless of how many pairs were
packaged; the miniz write failures and the exception path are the only
source exits not taken here. -/
def repackagePlugins (files : List String) (tag_name : String)
    (timestamp : Nat) : Bool × List (String × String) :=
  (true, files.filterMap (fun f =>
    let ext := pathExtension f
    if ext = ".dll" || ext = ".so" then
      let plugin_name := pathStem f
      let json_filename := plugin_name ++ "_tools.json"
      let safe_plugin_name := sanitizeFilename plugin_name
      let safe_filename := sanitizeFilename f
      let safe_json_filename := sanitizeFilename json_filename
      if safe_plugin_name = "" || safe_filename = "" || safe_json_filename = "" then
        none
      else if files.contains safe_json_filename then
        let platform_dir := platformDirOf ext
        let output_dir := repoDir ++ tag_name ++ "/" ++ platform_dir
        if output_dir.length > 200 then none
        else
          let package_name := safe_plugin_name ++ "_" ++ tag_name ++ "_" ++
            toString timestamp ++ ".zip"
          if package_name.length > 255 then none
          else if (output_dir ++ "/" ++ package_name).length > 260 then none
          else some (platform_dir, package_name)
      else none
    else none))

/-- Lookup in the std::map of tag records. -/
def mapLookup (k : String) : List (String × TagInfo) → Option TagInfo
  | [] => none
  | (k', v) :: m => if k' = k then some v else mapLookup k m

/-- Insert-or-replace in the std::map of tag records. -/
def mapInsert (k : String) (v : TagInfo) :
    List (String × TagInfo) → List (String × TagInfo)
  | [] => [(k, v)]
  | (k', v') :: m => if k' = k then (k, v) :: m else (k', v') :: mapInsert k v m

/-- Operation events recorded by the engine model: mutex acquisitions and
releases, and the blocking network and filesystem operations named by the
specification. -/
inductive OpEvent
  | lockAcquire
  | lockRelease
  | netRequest
  | netDownload
  | fsExtract
  | fsRepackage
  | fsPersist
  | fsLoad
deriving DecidableEq

/-- Environment of one processTag run: the outcome of downloadAsset for
each asset name, the outcome of extractAsset, the regular files found at
the top of the scratch directory after extraction, and the clock value
used for package names. -/
structure ProcEnv where
  downloadOk : String → Bool
  extractOk : String → Bool
  scratchFiles : String → List String
  timestamp : Nat

/-- One asset entry as written to the per-tag JSON file by saveTagInfo
(source lines 836 to 854). -/
structure SavedAsset where
  name : String
  download_url : String
  local_path : String
  platform : String
deriving DecidableEq

/-- One plugin package entry as written to the per-tag JSON file by
saveTagInfo (source lines 859 to 881). -/
structure SavedPlugin where
  id : String
  name : String
  version : String
  description : String
  author : String
  release_date : String
  tag_name : String
  local_path : String
deriving DecidableEq

/-- The per-tag JSON document written by saveTagInfo (source lines 811 to
896). -/
structure SavedTag where
  tag_name : String
  name : String
  published_at : String
  assets : List SavedAsset
  plugin_packages : List (String × SavedPlugin)
deriving DecidableEq

/-- The string stored for a platform (source lines 851 to 852). -/
def platformString : Platform → String
  | .windows => "windows"
  | .linux => "linux"
  | .unknown => "unknown"

/-- The platform parsed back from its stored string (source lines
945 to 946). -/
def parsePlatform (s : String) : Platform :=
  if s = "windows" then .windows else if s = "linux" then .linux else .unknown

/-- One asset as saveTagInfo writes it (source lines 836 to 853): name and
local_path sanitized (lines 838, 848), download_url verbatim (line 845). -/
def writeAsset (a : ReleaseAsset) : SavedAsset :=
  { name := sanitizeFilename a.name
    download_url := a.download_url
    local_path := sanitizeFilename a.local_path
    platform := platformString a.platform }

/-- The asset write step with its skip guard for an empty sanitized name
(source lines 839 to 841). -/
def saveAssetEntry (a : ReleaseAsset) : Option SavedAsset :=
  if sanitizeFilename a.name = "" then none else some (writeAsset a)

/-- One plugin package as saveTagInfo writes it (source lines 859 to 880):
every string field sanitized except release_date, stored verbatim (line
873). -/
def writePlugin (p : String × PluginPackageInfo) : String × SavedPlugin :=
  (sanitizeFilename p.1,
    { id := sanitizeFilename p.1
      name := sanitizeFilename p.2.name
      version := sanitizeFilename p.2.version
      description := sanitizeFilename p.2.description
      author := sanitizeFilename p.2.author
      release_date := p.2.release_date
      tag_name := sanitizeFilename p.2.tag_name
      local_path := sanitizeFilename p.2.local_path })

/-- The plugin write step with its skip guard for an empty sanitized id
(source lines 861 to 864). -/
def savePluginEntry (p : String × PluginPackageInfo) :
    Option (String × SavedPlugin) :=
  if sanitizeFilename p.1 = "" then none else some (writePlugin p)

/-- saveTagInfo (source lines 811 to 896): the persisted file path is
keyed by the sanitized tag name (lines 813, 819) and refused when empty or
longer than 260 bytes (lines 814, 822); tag_name and name are stored
sanitized (lines 830, 831) while published_at is stored verbatim (line
832). -/
def saveTagInfoModel (t : TagInfo) : Option (String × SavedTag) :=
  let safe := sanitizeFilename t.tag_name
  if safe = "" then none
  else
    let tag_file := repoDir ++ safe ++ ".json"
    if tag_file.length > 260 then none
    else some (tag_file,
      { tag_name := safe
        name := sanitizeFilename t.name
        published_at := t.published_at
        assets := t.assets.filterMap saveAssetEntry
        plugin_packages := t.plugin_packages.filterMap savePluginEntry })

/-- One asset as loadTagInfo reads it back (source lines 940 to 950): name
and local_path re-sanitized, download_url verbatim (line 942). -/
def readAsset (a : SavedAsset) : ReleaseAsset :=
  { name := sanitizeFilename a.name
    download_url := a.download_url
    local_path := sanitizeFilename a.local_path
    platform := parsePlatform a.platform }

/-- The asset read step: kept only when the sanitized name is non-empty
(source line 952). -/
def loadAssetEntry (a : SavedAsset) : Option ReleaseAsset :=
  if sanitizeFilename a.name = "" then none else some (readAsset a)

/-- One plugin package as loadTagInfo reads it back (source lines 968 to
985): every string field re-sanitized except release_date, kept verbatim
(line 975). -/
def readPlugin (p : String × SavedPlugin) : String × PluginPackageInfo :=
  (sanitizeFilename p.1,
    { id := sanitizeFilename p.1
      name := sanitizeFilename p.2.name
      version := sanitizeFilename p.2.version
      description := sanitizeFilename p.2.description
      author := sanitizeFilename p.2.author
      release_date := p.2.release_date
      tag_name := sanitizeFilename p.2.tag_name
      local_path := sanitizeFilename p.2.local_path })

/-- The plugin read step with its skip guard for an empty sanitized key
(source lines 963 to 966). -/
def loadPluginEntry (p : String × SavedPlugin) :
    Option (String × PluginPackageInfo) :=
  if sanitizeFilename p.1 = "" then none else some (readPlugin p)

/-- The read half of loadTagInfo (source lines 928 to 993), applied to a
parsed per-tag document: tag_name and name are re-sanitized (lines 934,
935) while published_at is kept verbatim (line 931). -/
def loadFromSaved (s : SavedTag) : TagInfo :=
  { tag_name := sanitizeFilename s.tag_name
    name := sanitizeFilename s.name
    published_at := s.published_at
    assets := s.assets.filterMap loadAssetEntry
    plugin_packages := s.plugin_packages.filterMap loadPluginEntry }

/-- Result of one processTag call: the boolean return value, the tag map
after the call, the events in program order, the per-tag documents written
by saveTagInfo, and the packages created by repackagePlugins as (platform
directory, package file name) pairs under repo_dir_/tag. -/
structure ProcResult where
  ok : Bool
  tags : List (String × TagInfo)
  events : List OpEvent
  savedFiles : List (String × SavedTag)
  createdPackages : List (String × String)

/-- The per-asset body of the processing loop in processTag (source lines
390 to 418): an over-long scratch path skips the asset before extraction
(line 395); a failed extraction emits only the extraction work (line 403);
otherwise extraction is followed by repackagePlugins (line 410), whose
boolean feeds the processed flag and whose packages are accumulated. -/
def processAssetStep (env : ProcEnv) (extract_dir safe : String)
    (a : ReleaseAsset) : List OpEvent × Bool × List (String × String) :=
  if extract_dir.length > 230 then ([], false, [])
  else if env.extractOk a.name = false then ([.fsExtract], false, [])
  else
    let r := repackagePlugins (env.scratchFiles a.name) safe env.timestamp
    ([.fsExtract, .fsRepackage], r.1, r.2)

/-- processTag (source lines 304 to 435).  The input tag name is sanitized
(line 306) and rejected when empty (line 307); the record is looked up and
copied out under the mutex (lines 314 to 329), returning failure when
absent (line 317) and immediate success when its plugin_packages map is
non-empty (line 323); an over-long tag directory fails (line 339); each
asset whose local path fits launches one download (lines 353 to 369); each
successful download is extracted and repackaged (lines 390 to 418); when
at least one repackagePlugins call returned true the record is written
back under the mutex (lines 423 to 426) and persisted through saveTagInfo
after the lock is released (line 428). -/
def processTag (env : ProcEnv) (tags : List (String × TagInfo))
    (tag_name : String) : ProcResult :=
  let safe := sanitizeFilename tag_name
  if safe = "" then ⟨false, tags, [], [], []⟩
  else
    match mapLookup safe tags with
    | none => ⟨false, tags, [.lockAcquire, .lockRelease], [], []⟩
    | some ti =>
      if ti.plugin_packages.isEmpty = false then
        ⟨true, tags, [.lockAcquire, .lockRelease], [], []⟩
      else
        let tag_dir := repoDir ++ safe
        if tag_dir.length > 200 then ⟨false, tags, [.lockAcquire, .lockRelease], [], []⟩
        else
          let attempted := ti.assets.filter (fun a => !decide (260 < a.local_path.length))
          let dlEvents := attempted.map (fun _ => OpEvent.netDownload)
          let successes := attempted.filter (fun a => env.downloadOk a.name)
          let extract_dir := tag_dir ++ "/temp_extract"
          let procEvents := successes.foldr
            (fun a acc => (processAssetStep env extract_dir safe a).1 ++ acc) []
          let processed := successes.any
            (fun a => (processAssetStep env extract_dir safe a).2.1)
          let packages := successes.foldr
            (fun a acc => (processAssetStep env extract_dir safe a).2.2 ++ acc) []
          if processed then
            ⟨true, mapInsert safe ti tags,
              [.lockAcquire, .lockRelease] ++ dlEvents ++ procEvents ++
                [.lockAcquire, .lockRelease, .fsPersist],
              (saveTagInfoModel ti).toList, packages⟩
          else
            ⟨false, tags, [.lockAcquire, .lockRelease] ++ dlEvents ++ procEvents, [], []⟩

/-- The tag-map reconstruction of updateRepoInfo (source lines 271 to
284): the cache is cleared and, for each fetched tag, the persisted record
loaded by loadTagInfo replaces the fetched one exactly when it exists and
its plugin_packages map is non-empty. -/
def mergeStep (persisted : String → Option TagInfo)
    (m : List (String × TagInfo)) (tag : TagInfo) : List (String × TagInfo) :=
  match persisted tag.tag_name with
  | some ex =>
    if ex.plugin_packages.isEmpty then mapInsert tag.tag_name tag m
    else mapInsert tag.tag_name ex m
  | none => mapInsert tag.tag_name tag m

/-- See mergeStep: updateRepoInfo rebuilds the cache from the fetched list
starting from an empty map. -/
def updateRepoMerge (fetched : List TagInfo)
    (persisted : String → Option TagInfo) : List (String × TagInfo) :=
  fetched.foldl (mergeStep persisted) []

/-- The event trace of updateRepoInfo (source lines 255 to 288): the mutex
is acquired at function entry (line 256) and released only on return;
when the URL is set, fetchAllReleases issues its HTTP request to the
releases endpoint (line 189) and, when it succeeds, loadTagInfo reads one
state file per fetched tag (line 275) before the merge completes. -/
def updateRepoInfoEvents (urlSet fetchOk : Bool) (numTags : Nat) : List OpEvent :=
  [OpEvent.lockAcquire] ++
    (if urlSet then
      [OpEvent.netRequest] ++
        (if fetchOk then List.replicate numTags OpEvent.fsLoad else [])
    else []) ++
    [OpEvent.lockRelease]

/-- The blocking operations of the concurrency model: network and
filesystem I/O.  Lock operations themselves are not blocking I/O. -/
def isBlocking : OpEvent → Bool
  | .netRequest => true
  | .netDownload => true
  | .fsExtract => true
  | .fsRepackage => true
  | .fsPersist => true
  | .fsLoad => true
  | _ => false

/-- Mutex bookkeeping events. -/
def isLockEvent : OpEvent → Bool
  | .lockAcquire => true
  | .lockRelease => true
  | _ => false

/-- Work performed by the downloader, extractor, repackager or persister. -/
def isWorkEvent : OpEvent → Bool
  | .netDownload => true
  | .fsExtract => true
  | .fsRepackage => true
  | .fsPersist => true
  | _ => false

/-- Scan of an event trace with the current lock depth: true when some
blocking operation happens while at least one lock is held. -/
def violAux : List OpEvent → Nat → Bool
  | [], _ => false
  | e :: tr, d =>
    if e = OpEvent.lockAcquire then violAux tr (d + 1)
    else if e = OpEvent.lockRelease then violAux tr (d - 1)
    else (isBlocking e && decide (0 < d)) || violAux tr d

/-- A trace blocks while holding the lock when its depth-scan reports a
violation starting from depth zero. -/
def lockHeldViolation (tr : List OpEvent) : Bool := violAux tr 0

/-- Download attempt outcomes seen by downloadAsset: a transport failure
(the httplib result is empty) or an HTTP status code. -/
inductive DlOutcome
  | transport
  | status (n : Nat)
deriving DecidableEq

/-- Environment of one downloadAsset call, indexed by attempt number:
whether the local file already exists when the attempt begins, the HTTP
outcome of the attempt, and whether the local file could be created for
writing. -/
structure DlEnv where
  exists_at : Nat → Bool
  outcome : Nat → DlOutcome
  writeOk : Nat → Bool

/-- The retry loop of downloadAsset (source lines 464 to 599), returning
the result together with the number of HTTP GET attempts issued and the
number of inter-attempt delays slept.  Each iteration first checks for an
already-present file (line 476), then issues the GET (line 525); an empty
result retries (line 546); a non-200 status retries unless it is 404,
which returns failure at once (line 564); on 200 a file-creation failure
retries (line 587) and a successful write returns success (line 594). -/
def downloadGo (env : DlEnv) : Nat → Nat → Nat → Nat → Bool × Nat × Nat
  | 0, _, gets, sleeps => (false, gets, sleeps)
  | fuel + 1, attempt, gets, sleeps =>
    let sleeps := if attempt > 1 then sleeps + 1 else sleeps
    if env.exists_at attempt then (true, gets, sleeps)
    else
      match env.outcome attempt with
      | .transport => downloadGo env fuel (attempt + 1) (gets + 1) sleeps
      | .status n =>
        if n = 200 then
          if env.writeOk attempt then (true, gets + 1, sleeps)
          else downloadGo env fuel (attempt + 1) (gets + 1) sleeps
        else if n = 404 then (false, gets + 1, sleeps)
        else downloadGo env fuel (attempt + 1) (gets + 1) sleeps

/-- The retry bound max_retries of downloadAsset (source line 465). -/
def maxRetries : Nat := 3

/-- The fixed inter-attempt delay of downloadAsset in seconds (source
line 466). -/
def retryDelaySeconds : Nat := 5

/-- downloadAsset (source lines 464 to 599): up to maxRetries attempts
starting at attempt one. -/
def downloadAsset (env : DlEnv) : Bool × Nat × Nat :=
  downloadGo env maxRetries 1 0 0

/-- A transient download failure in the sense of the specification: a
transport error or a status other than 200 and 404. -/
def isTransientOutcome : DlOutcome → Prop
  | .transport => True
  | .status n => n ≠ 200 ∧ n ≠ 404

/-- State of the periodic scanner: whether the worker thread handle is
joinable, the cancellation flag, how many worker threads were ever
spawned, and whether std::terminate was triggered by assigning to a
joinable std::thread. -/
structure ScanState where
  running : Bool
  stopFlag : Bool
  spawnCount : Nat
  terminated : Bool
deriving DecidableEq

/-- startPeriodicScan (source lines 1023 to 1039): the stop flag is
cleared and a worker is spawned unconditionally; there is no check that a
worker is already running, and assigning the new thread into a joinable
periodic_thread_ member calls std::terminate. -/
def startPeriodicScan (s : ScanState) : ScanState :=
  { running := true
    stopFlag := false
    spawnCount := s.spawnCount + 1
    terminated := s.terminated || s.running }

/-- stopPeriodicScan (source lines 1041 to 1049): the stop flag is set and
the worker is joined when joinable. -/
def stopPeriodicScan (s : ScanState) : ScanState :=
  { running := false
    stopFlag := true
    spawnCount := s.spawnCount
    terminated := s.terminated }

/-- The package path computed by the /download route handler (source line
1170) from the three raw route captures. -/
def downloadHandlerPath (tag platform package : String) : String :=
  repoDir ++ tag ++ "/" ++ platform ++ "/" ++ package

/-- Environment of the end-to-end scenario: every download and extraction
succeeds and the eligible archive contains widgets.dll together with
widgets_tools.json. -/
def endToEndEnv : ProcEnv :=
  { downloadOk := fun _ => true
    extractOk := fun _ => true
    scratchFiles := fun _ => ["widgets.dll", "widgets_tools.json"]
    timestamp := 1700000000 }

/-- The release record of the end-to-end scenario: one release tagged
v1.2.0 with the single eligible asset widgets-plugin-windows.zip. -/
def endToEndTag : TagInfo :=
  { tag_name := "v1.2.0"
    name := "widgets v1.2.0"
    published_at := "2024-01-01T00:00:00Z"
    assets := [{ name := "widgets-plugin-windows.zip"
                 download_url := "https://github.com/acme/widgets/releases/download/v1.2.0/widgets-plugin-windows.zip"
                 local_path := "plugin_repo/v1.2.0/widgets-plugin-windows.zip"
                 platform := .windows }]
    plugin_packages := [] }

/-- In-memory tag map holding the end-to-end scenario release. -/
def endToEndStore : List (String × TagInfo) := [("v1.2.0", endToEndTag)]

/-- Environment in which the downloaded archive extracts to a single
platform binary with no sibling manifest. -/
def missingManifestEnv : ProcEnv :=
  { downloadOk := fun _ => true
    extractOk := fun _ => true
    scratchFiles := fun _ => ["widgets.dll"]
    timestamp := 1700000000 }

/-- An unprocessed release record named v1 with one eligible asset. -/
def unprocessedTag : TagInfo :=
  { tag_name := "v1"
    name := "release one"
    published_at := "2024-02-02T00:00:00Z"
    assets := [{ name := "widgets-plugin-windows.zip"
                 download_url := "https://example.invalid/a.zip"
                 local_path := "plugin_repo/v1/widgets-plugin-windows.zip"
                 platform := .windows }]
    plugin_packages := [] }

/-- In-memory tag map holding only the unprocessed record v1. -/
def smallStore : List (String × TagInfo) := [("v1", unprocessedTag)]

/-- A fully processed release record: its plugin_packages map holds one
entry, so the engine must treat it as already done. -/
def processedTag : TagInfo :=
  { tag_name := "v2"
    name := "release two"
    published_at := "2024-03-03T00:00:00Z"
    assets := []
    plugin_packages := [("acme_widgets",
      { id := "acme_widgets"
        name := "widgets"
        version := "2.0"
        description := "demo"
        author := "acme"
        release_date := "2024-03-03"
        tag_name := "v2"
        local_path := "widgets_v2_1700000000.zip" })] }

/-- A metadata-only record fetched from the API under the same tag name
v2 as the persisted processedTag record. -/
def fetchedTag : TagInfo :=
  { tag_name := "v2"
    name := "release two"
    published_at := "2024-03-03T00:00:00Z"
    assets := []
    plugin_packages := [] }

/-- Persisted-state oracle that knows exactly the fully processed record
v2. -/
def persistedOracle : String → Option TagInfo :=
  fun s => if s = "v2" then some processedTag else none

/-- Download environment in which every attempt fails with a transport
error and no local file ever appears. -/
def allTransientEnv : DlEnv :=
  { exists_at := fun _ => false
    outcome := fun _ => DlOutcome.transport
    writeOk := fun _ => true }

/-- Download environment in which the first attempt answers HTTP 404. -/
def notFoundEnv : DlEnv :=
  { exists_at := fun _ => false
    outcome := fun _ => DlOutcome.status 404
    writeOk := fun _ => true }

/-- Processing environment in which nothing succeeds; used to probe calls
that must not reach the downloader at all. -/
def inertEnv : ProcEnv :=
  { downloadOk := fun _ => false
    extractOk := fun _ => false
    scratchFiles := fun _ => []
    timestamp := 0 }

/-- A record whose publish timestamp contains path separators, probing the
write-side sanitization of saveTagInfo. -/
def slashTimestampTag : TagInfo :=
  { tag_name := "v3"
    name := "release three"
    published_at := "2024/01/01"
    assets := []
    plugin_packages := [] }

/-- The persisted document of slashTimestampTag as saveTagInfo writes it. -/
def slashTimestampSaved : SavedTag :=
  { tag_name := "v3"
    name := "release three"
    published_at := "2024/01/01"
    assets := []
    plugin_packages := [] }

/-- The sanitizer never returns the empty list: the placeholder branch at
source line 111 guarantees a non-empty result. -/
theorem sanitizeList_ne_nil (l : List Char) : sanitizeList l ≠ [] := by
  unfold sanitizeList
  cases he : (truncate255 (l.map sanitizeChar)).isEmpty with
  | true => simp [he]
  | false =>
    simp only [he]
    simp only [Bool.false_eq_true, if_false]
    intro hnil
    rw [hnil] at he
    simp at he

/-- String form of sanitizeList_ne_nil. -/
theorem sanitizeFilename_ne_empty (s : String) : sanitizeFilename s ≠ "" := by
  intro h
  exact sanitizeList_ne_nil s.data (congrArg String.data h)

/-- A filterMap whose step always succeeds is a map. -/
theorem filterMap_total {α β : Type} (g : α → Option β) (f : α → β)
    (hg : ∀ a, g a = some (f a)) (l : List α) : l.filterMap g = l.map f := by
  induction l with
  | nil => rfl
  | cons x xs ih => simp [List.filterMap_cons, hg, ih]

/-- Looking up a freshly inserted key yields the inserted value. -/
theorem mapLookup_insert_self (k : String) (v : TagInfo)
    (m : List (String × TagInfo)) : mapLookup k (mapInsert k v m) = some v := by
  induction m with
  | nil => simp [mapInsert, mapLookup]
  | cons p m ih =>
    by_cases h : p.1 = k
    · simp [mapInsert, mapLookup, h]
    · simp [mapInsert, mapLookup, h, ih]

/-- Inserting under a different key leaves a lookup unchanged. -/
theorem mapLookup_insert_ne (k k' : String) (v : TagInfo)
    (m : List (String × TagInfo)) (h : k' ≠ k) :
    mapLookup k (mapInsert k' v m) = mapLookup k m := by
  have h2 : ¬k = k' := fun hh => h hh.symm
  induction m with
  | nil => simp [mapInsert, mapLookup, h2, h]
  | cons p m ih =>
    by_cases hp : p.1 = k'
    · simp [mapInsert, mapLookup, hp, h2, h]
    · by_cases hk : p.1 = k
      · simp [mapInsert, mapLookup, hp, hk, h2]
      · simp [mapInsert, mapLookup, hp, hk, ih]

/-- The reconciliation fold does not touch keys absent from the fetched
list. -/
theorem foldl_merge_not_mem (persisted : String → Option TagInfo) (k : String) :
    ∀ (fetched : List TagInfo) (acc : List (String × TagInfo)),
      k ∉ fetched.map TagInfo.tag_name →
      mapLookup k (fetched.foldl (mergeStep persisted) acc) = mapLookup k acc := by
  intro fetched
  induction fetched with
  | nil => intro acc _; rfl
  | cons tag rest ih =>
    intro acc hmem
    simp only [List.map_cons, List.mem_cons] at hmem
    push_neg at hmem
    obtain ⟨hne, hrest⟩ := hmem
    rw [List.foldl_cons, ih _ hrest]
    unfold mergeStep
    cases hp : persisted tag.tag_name with
    | none => exact mapLookup_insert_ne k tag.tag_name tag acc (fun hh => hne hh.symm)
    | some ex =>
      by_cases he : ex.plugin_packages.isEmpty
      · simp only [he, if_true]
        exact mapLookup_insert_ne k tag.tag_name tag acc (fun hh => hne hh.symm)
      · simp only [he, if_false]
        exact mapLookup_insert_ne k tag.tag_name ex acc (fun hh => hne hh.symm)

/-- When the persisted store holds a fully processed record under a
fetched tag name, the reconciliation fold keeps the persisted record. -/
theorem foldl_merge_mem (persisted : String → Option TagInfo) (k : String)
    (p : TagInfo) (hp : persisted k = some p)
    (hne : p.plugin_packages ≠ []) :
    ∀ (fetched : List TagInfo) (acc : List (String × TagInfo)),
      k ∈ fetched.map TagInfo.tag_name →
      mapLookup k (fetched.foldl (mergeStep persisted) acc) = some p := by
  have hemp : p.plugin_packages.isEmpty = false := by
    cases hc : p.plugin_packages with
    | nil => exact absurd hc hne
    | cons a l => rfl
  intro fetched
  induction fetched with
  | nil => intro acc h; simp at h
  | cons tag rest ih =>
    intro acc hmem
    rw [List.foldl_cons]
    by_cases hr : k ∈ rest.map TagInfo.tag_name
    · exact ih _ hr
    · have htag : tag.tag_name = k := by
        simp only [List.map_cons, List.mem_cons] at hmem
        rcases hmem with h1 | h2
        · exact h1.symm
        · exact absurd h2 hr
      rw [foldl_merge_not_mem persisted k rest _ hr]
      unfold mergeStep
      rw [htag, hp]
      simp only [hemp, Bool.false_eq_true, if_false]
      exact mapLookup_insert_self k p acc

/-- processTag takes the early-success exit of source line 325 when the
record found under the sanitized name already has plugin packages. -/
theorem processTag_processed_skip (env : ProcEnv)
    (tags : List (String × TagInfo)) (k : String) (p : TagInfo)
    (hl : mapLookup (sanitizeFilename k) tags = some p)
    (hne : p.plugin_packages ≠ []) :
    processTag env tags k =
      ⟨true, tags, [OpEvent.lockAcquire, OpEvent.lockRelease], [], []⟩ := by
  have hemp : p.plugin_packages.isEmpty = false := by
    cases hc : p.plugin_packages with
    | nil => exact absurd hc hne
    | cons a l => rfl
  unfold processTag
  rw [if_neg (sanitizeFilename_ne_empty k), hl]
  simp only [hemp]
  rfl

/-- The processed flag of one asset is exactly its extraction outcome
whenever the scratch path fits, because repackagePlugins returns true. -/
theorem processAssetStep_flag (env : ProcEnv) (ed safe : String)
    (a : ReleaseAsset) (h : ed.length ≤ 230) :
    (processAssetStep env ed safe a).2.1 = env.extractOk a.name := by
  unfold processAssetStep
  rw [if_neg (by omega)]
  cases hx : env.extractOk a.name with
  | false => simp [hx]
  | true => simp [hx, repackagePlugins]

/-- A non-lock event at depth zero cannot raise a violation. -/
theorem violAux_cons_nolock (e : OpEvent) (tr : List OpEvent)
    (h : isLockEvent e = false) :
    violAux (e :: tr) 0 = violAux tr 0 := by
  cases e <;> simp_all [violAux, isLockEvent]

/-- A lock-free prefix at depth zero cannot raise a violation. -/
theorem violAux_append_nolock (l r : List OpEvent)
    (h : ∀ e ∈ l, isLockEvent e = false) :
    violAux (l ++ r) 0 = violAux r 0 := by
  induction l with
  | nil => rfl
  | cons e l ih =>
    have h1 := h e (List.mem_cons_self e l)
    have h2 : ∀ x ∈ l, isLockEvent x = false :=
      fun x hx => h x (List.mem_cons_of_mem e hx)
    rw [List.cons_append, violAux_cons_nolock e _ h1, ih h2]

/-- A lock-free trace has no violation. -/
theorem violAux_nolock (l : List OpEvent)
    (h : ∀ e ∈ l, isLockEvent e = false) : violAux l 0 = false := by
  have h2 := violAux_append_nolock l [] h
  rw [List.append_nil] at h2
  exact h2

/-- Membership in a fold of appended blocks comes from one block. -/
theorem mem_foldr_append {α : Type} (g : α → List OpEvent) (l : List α)
    (e : OpEvent) (he : e ∈ l.foldr (fun a acc => g a ++ acc) []) :
    ∃ a ∈ l, e ∈ g a := by
  induction l with
  | nil => simp at he
  | cons x xs ih =>
    simp only [List.foldr_cons, List.mem_append] at he
    rcases he with h | h
    · exact ⟨x, List.mem_cons_self x xs, h⟩
    · obtain ⟨a, ha, hg⟩ := ih h
      exact ⟨a, List.mem_cons_of_mem x ha, hg⟩

/-- The per-asset processing block emits no lock events: extraction and
repackaging happen outside the mutex. -/
theorem processAssetStep_nolock (env : ProcEnv) (ed safe : String)
    (a : ReleaseAsset) :
    ∀ e ∈ (processAssetStep env ed safe a).1, isLockEvent e = false := by
  intro e he
  unfold processAssetStep at he
  split at he
  · simp at he
  · split at he
    · simp at he
      subst he
      rfl
    · simp at he
      rcases he with h | h <;> subst h <;> rfl

/-- A balanced acquire-release pair in front of a trace leaves the scan at
depth zero. -/
theorem violAux_AR (X : List OpEvent) :
    violAux ([OpEvent.lockAcquire, OpEvent.lockRelease] ++ X) 0 = violAux X 0 := by
  simp [violAux]

/-- Download launch events carry no lock operations. -/
theorem nolock_map_const {α : Type} (l : List α) :
    ∀ e ∈ l.map (fun _ => OpEvent.netDownload), isLockEvent e = false := by
  intro e he
  rw [List.mem_map] at he
  obtain ⟨x, _, hx⟩ := he
  rw [← hx]
  rfl

/-- The concatenated per-asset blocks carry no lock operations. -/
theorem nolock_foldr_steps (env : ProcEnv) (ed safe : String)
    (l : List ReleaseAsset) :
    ∀ e ∈ List.foldr (fun a acc => (processAssetStep env ed safe a).1 ++ acc) [] l,
      isLockEvent e = false := by
  intro e he
  obtain ⟨a, _, hg⟩ := mem_foldr_append _ _ _ he
  exact processAssetStep_nolock env ed safe a e hg

/-- processTag never performs blocking work while holding the mutex: its
trace is two balanced lock sections with all network and filesystem work
between or after them. -/
theorem processTag_noviol (env : ProcEnv) (tags : List (String × TagInfo))
    (t : String) : lockHeldViolation (processTag env tags t).events = false := by
  unfold lockHeldViolation
  simp only [processTag]
  split
  · rfl
  · split
    · rfl
    · split
      · rfl
      · split
        · rfl
        · split
          · rw [List.append_assoc, List.append_assoc, violAux_AR,
              violAux_append_nolock _ _ (nolock_map_const _),
              violAux_append_nolock _ _ (nolock_foldr_steps _ _ _ _)]
            rfl
          · rw [List.append_assoc, violAux_AR,
              violAux_append_nolock _ _ (nolock_map_const _)]
            exact violAux_nolock _ (nolock_foldr_steps _ _ _ _)

/-- The asset write step never actually skips. -/
theorem saveAssetEntry_total (a : ReleaseAsset) :
    saveAssetEntry a = some (writeAsset a) :=
  if_neg (sanitizeFilename_ne_empty a.name)

/-- The plugin write step never actually skips. -/
theorem savePluginEntry_total (p : String × PluginPackageInfo) :
    savePluginEntry p = some (writePlugin p) :=
  if_neg (sanitizeFilename_ne_empty p.1)

/-- The asset read step never actually skips. -/
theorem loadAssetEntry_total (a : SavedAsset) :
    loadAssetEntry a = some (readAsset a) :=
  if_neg (sanitizeFilename_ne_empty a.name)

/-- The plugin read step never actually skips. -/
theorem loadPluginEntry_total (p : String × SavedPlugin) :
    loadPluginEntry p = some (readPlugin p) :=
  if_neg (sanitizeFilename_ne_empty p.1)

/-- Shape of a successful saveTagInfo write: the path is keyed by the
sanitized tag name, and the document is the field-wise write image. -/
theorem saveTagInfoModel_some (t : TagInfo) (path : String) (s : SavedTag)
    (h : saveTagInfoModel t = some (path, s)) :
    path = repoDir ++ sanitizeFilename t.tag_name ++ ".json" ∧
    s = { tag_name := sanitizeFilename t.tag_name
          name := sanitizeFilename t.name
          published_at := t.published_at
          assets := t.assets.filterMap saveAssetEntry
          plugin_packages := t.plugin_packages.filterMap savePluginEntry } := by
  unfold saveTagInfoModel at h
  rw [if_neg (sanitizeFilename_ne_empty t.tag_name)] at h
  dsimp only at h
  split at h
  · exact Option.noConfusion h
  · simp only [Option.some.injEq, Prod.mk.injEq] at h
    exact ⟨h.1.symm, h.2.symm⟩

/-- Claim C1: in the end-to-end scenario (one release tagged v1.2.0 whose
single eligible asset extracts to widgets.dll plus widgets_tools.json),
processTag succeeds and creates exactly one package file named
widgets_v1.2.0_timestamp.zip under the windows platform directory, and it
writes the per-tag state file, but the persisted plugin_packages map is
empty rather than holding one entry: repackagePlugins never records a
PluginPackageInfo, so the second half of the claim fails on the code. -/
theorem processTag_end_to_end_persists_empty_map :
    (processTag endToEndEnv endToEndStore "v1.2.0").ok = true ∧
    (processTag endToEndEnv endToEndStore "v1.2.0").createdPackages =
      [("windows", "widgets_v1.2.0_1700000000.zip")] ∧
    (processTag endToEndEnv endToEndStore "v1.2.0").savedFiles.map
      (fun p => p.1) = ["plugin_repo/v1.2.0.json"] ∧
    (processTag endToEndEnv endToEndStore "v1.2.0").savedFiles.map
      (fun p => p.2.plugin_packages) = [[]] := by
  decide

/-- Claim C2 counterexample: when the only downloaded asset extracts to a
platform binary with no sibling manifest, zero pairs are repackaged, yet
processTag still returns success and persists the record, because
repackagePlugins returns true after a scan that packaged nothing. -/
theorem repackage_without_manifest_marks_processed :
    (processTag missingManifestEnv smallStore "v1").ok = true ∧
    (processTag missingManifestEnv smallStore "v1").createdPackages = [] ∧
    (processTag missingManifestEnv smallStore "v1").savedFiles.map
      (fun p => p.1) = ["plugin_repo/v1.json"] := by
  decide

/-- Claim C2 as amended: for a known, unprocessed tag whose directory path
fits, processTag reports success exactly when at least one asset with a
fitting local path downloads and extracts successfully, regardless of
whether any binary/manifest pair was repackaged. -/
theorem processTag_ok_iff_some_extracted (env : ProcEnv)
    (tags : List (String × TagInfo)) (t : String) (ti : TagInfo)
    (hl : mapLookup (sanitizeFilename t) tags = some ti)
    (hem : ti.plugin_packages = [])
    (hdir : (repoDir ++ sanitizeFilename t).length ≤ 200) :
    (processTag env tags t).ok = true ↔
      ∃ a ∈ ti.assets, a.local_path.length ≤ 260 ∧
        env.downloadOk a.name = true ∧ env.extractOk a.name = true := by
  have hed : (repoDir ++ sanitizeFilename t ++ "/temp_extract").length ≤ 230 := by
    rw [String.length_append]
    have h13 : ("/temp_extract" : String).length = 13 := rfl
    omega
  simp only [processTag]
  rw [if_neg (sanitizeFilename_ne_empty t), hl]
  have hemp : ti.plugin_packages.isEmpty = true := by rw [hem]; rfl
  simp only [hemp, Bool.true_eq_false, if_false]
  rw [if_neg (by omega)]
  split
  next hproc =>
    rw [List.any_eq_true] at hproc
    obtain ⟨a, ha, hflag⟩ := hproc
    rw [List.mem_filter] at ha
    obtain ⟨ha2, hdl⟩ := ha
    rw [List.mem_filter] at ha2
    obtain ⟨hmem, hlen⟩ := ha2
    rw [Bool.not_eq_true', decide_eq_false_iff_not, Nat.not_lt] at hlen
    rw [processAssetStep_flag env _ _ a hed] at hflag
    simp only [true_iff]
    exact ⟨a, hmem, hlen, hdl, hflag⟩
  next hproc =>
    constructor
    · intro hfalse
      exact Bool.noConfusion hfalse
    · intro hex
      exfalso
      apply hproc
      obtain ⟨a, hmem, hlen, hdl, hex2⟩ := hex
      rw [List.any_eq_true]
      refine ⟨a, ?_, ?_⟩
      · rw [List.mem_filter]
        refine ⟨?_, hdl⟩
        rw [List.mem_filter]
        refine ⟨hmem, ?_⟩
        rw [Bool.not_eq_true', decide_eq_false_iff_not, Nat.not_lt]
        exact hlen
      · rw [processAssetStep_flag env _ _ a hed]
        exact hex2

/-- Witness for claim C2 as amended, at the manifest-free scenario. -/
theorem processTag_ok_iff_some_extracted_witness :
    (processTag missingManifestEnv smallStore "v1").ok = true ↔
      ∃ a ∈ unprocessedTag.assets, a.local_path.length ≤ 260 ∧
        missingManifestEnv.downloadOk a.name = true ∧
        missingManifestEnv.extractOk a.name = true :=
  processTag_ok_iff_some_extracted missingManifestEnv smallStore "v1"
    unprocessedTag (by decide) (by decide) (by decide)

/-- Claim C3: a tag whose persisted record has a non-empty plugin_packages
map survives reconciliation as the persisted record, and processTag on it
returns success with a trace holding only the lock pair: no download,
extraction, repackaging or persistence happens and the map is unchanged. -/
theorem processed_tags_never_redownloaded (env : ProcEnv)
    (fetched : List TagInfo) (persisted : String → Option TagInfo)
    (k : String) (p : TagInfo)
    (hk : sanitizeFilename k = k)
    (hmem : k ∈ fetched.map TagInfo.tag_name)
    (hp : persisted k = some p)
    (hne : p.plugin_packages ≠ []) :
    mapLookup k (updateRepoMerge fetched persisted) = some p ∧
    processTag env (updateRepoMerge fetched persisted) k =
      ⟨true, updateRepoMerge fetched persisted,
        [OpEvent.lockAcquire, OpEvent.lockRelease], [], []⟩ := by
  have hlook : mapLookup k (updateRepoMerge fetched persisted) = some p :=
    foldl_merge_mem persisted k p hp hne fetched [] hmem
  refine ⟨hlook, processTag_processed_skip env _ k p ?_ hne⟩
  rw [hk]
  exact hlook

/-- Witness for claim C3, at a store reconciled from one fetched tag with
a fully processed persisted record. -/
theorem processed_tags_never_redownloaded_witness :
    mapLookup "v2" (updateRepoMerge [fetchedTag] persistedOracle) =
      some processedTag ∧
    processTag inertEnv (updateRepoMerge [fetchedTag] persistedOracle) "v2" =
      ⟨true, updateRepoMerge [fetchedTag] persistedOracle,
        [OpEvent.lockAcquire, OpEvent.lockRelease], [], []⟩ :=
  processed_tags_never_redownloaded inertEnv [fetchedTag] persistedOracle
    "v2" processedTag (by decide) (by decide) (by decide) (by decide)

/-- Claim C4 counterexample: the updateRepoInfo trace acquires the store
mutex at entry and issues the releases HTTP request before releasing it,
so the fetch-and-reconcile operation blocks while holding the lock. -/
theorem updateRepoInfo_blocks_while_locked :
    lockHeldViolation (updateRepoInfoEvents true true 1) = true := by
  decide

/-- Claim C4 as amended: processTag performs all blocking work (downloads,
extraction, repackaging, persistence) outside the mutex, but
updateRepoInfo issues its HTTP request to the hosting API, and its per-tag
state-file loads, while holding the store mutex. -/
theorem engine_lock_discipline (env : ProcEnv)
    (tags : List (String × TagInfo)) (t : String) (fOk : Bool) (n : Nat) :
    lockHeldViolation (processTag env tags t).events = false ∧
    lockHeldViolation (updateRepoInfoEvents true fOk n) = true := by
  constructor
  · exact processTag_noviol env tags t
  · simp [updateRepoInfoEvents, lockHeldViolation, violAux, isBlocking]

/-- Claim C5: when the asset file never exists locally, a download whose
every attempt fails transiently issues exactly three HTTP attempts with
two fixed inter-attempt delays and reports failure, while a download whose
first attempt answers 404 issues exactly one attempt, sleeps never, and
reports failure. -/
theorem download_retry_and_404_bounds (env1 env2 : DlEnv) :
    ((∀ i, env1.exists_at i = false) →
      (∀ i, isTransientOutcome (env1.outcome i)) →
      downloadAsset env1 = (false, 3, 2)) ∧
    (env2.exists_at 1 = false → env2.outcome 1 = DlOutcome.status 404 →
      downloadAsset env2 = (false, 1, 0)) := by
  constructor
  · intro h1 h2
    have step : ∀ fuel attempt gets sleeps,
        downloadGo env1 (fuel + 1) attempt gets sleeps =
        downloadGo env1 fuel (attempt + 1) (gets + 1)
          (if attempt > 1 then sleeps + 1 else sleeps) := by
      intro fuel attempt gets sleeps
      conv_lhs => rw [downloadGo]
      rw [h1 attempt]
      simp only [Bool.false_eq_true, if_false]
      cases ho : env1.outcome attempt with
      | transport => rfl
      | status n =>
        have ht := h2 attempt
        rw [ho] at ht
        obtain ⟨hn200, hn404⟩ := ht
        simp only [if_neg hn200, if_neg hn404]
    unfold downloadAsset maxRetries
    rw [show (3 : Nat) = 2 + 1 from rfl, step,
      show (2 : Nat) = 1 + 1 from rfl, step,
      show (1 : Nat) = 0 + 1 from rfl, step]
    rfl
  · intro h1 h2
    unfold downloadAsset maxRetries
    rw [show (3 : Nat) = 2 + 1 from rfl]
    conv_lhs => rw [downloadGo]
    rw [h1, h2]
    simp only [Bool.false_eq_true, if_false]
    rfl

/-- Witness for claim C5, at an always-transient environment and an
immediate-404 environment. -/
theorem download_retry_and_404_bounds_witness :
    downloadAsset allTransientEnv = (false, 3, 2) ∧
    downloadAsset notFoundEnv = (false, 1, 0) :=
  ⟨(download_retry_and_404_bounds allTransientEnv notFoundEnv).1
      (fun _ => rfl) (fun _ => True.intro),
   (download_retry_and_404_bounds allTransientEnv notFoundEnv).2 rfl rfl⟩

set_option maxRecDepth 4000 in
/-- Claim C6: sanitize is meant to cap its output at 255 bytes, but on an
input whose trailing extension alone exceeds 255 bytes the size_t
expression 255 minus the extension length wraps around, the stem is never
truncated, and the 302-byte input comes back with all 302 bytes. -/
theorem sanitize_escapes_length_bound :
    (sanitizeFilename longExtInput).length = 302 ∧
    255 < (sanitizeFilename longExtInput).length := by
  decide

/-- Claim C7 counterexample: the /download route handler joins the three
raw route captures into the package path; sanitizing them first would
yield a different path, so the captures do not pass through sanitize. -/
theorem download_handler_skips_sanitization :
    downloadHandlerPath "a:b" "windows" "p.zip" ≠
      downloadHandlerPath (sanitizeFilename "a:b") (sanitizeFilename "windows")
        (sanitizeFilename "p.zip") := by
  decide

/-- Claim C7 as amended: the bundle-download operation resolves
repo_root/tag/platform/packageName from the raw captures without
sanitization, while the engine itself keys the per-tag persistence path by
the sanitized tag name. -/
theorem download_handler_raw_join (tg pf pk : String) (t : TagInfo)
    (path : String) (s : SavedTag)
    (h : saveTagInfoModel t = some (path, s)) :
    downloadHandlerPath tg pf pk =
      repoDir ++ tg ++ "/" ++ pf ++ "/" ++ pk ∧
    path = repoDir ++ sanitizeFilename t.tag_name ++ ".json" :=
  ⟨rfl, (saveTagInfoModel_some t path s h).1⟩

/-- Witness for claim C7 as amended, at a parent-directory capture and a
concrete saved record. -/
theorem download_handler_raw_join_witness :
    downloadHandlerPath ".." "windows" "x.zip" =
      repoDir ++ ".." ++ "/" ++ "windows" ++ "/" ++ "x.zip" ∧
    "plugin_repo/v3.json" =
      repoDir ++ sanitizeFilename slashTimestampTag.tag_name ++ ".json" :=
  download_handler_raw_join ".." "windows" "x.zip" slashTimestampTag
    "plugin_repo/v3.json" slashTimestampSaved (by decide)

/-- Claim C8 counterexample: a publish timestamp holding path separators
is written to the per-tag file verbatim and read back verbatim, although
its sanitized form differs, so not every string field is re-sanitized. -/
theorem published_at_written_and_read_verbatim :
    (saveTagInfoModel slashTimestampTag).map (fun p => p.2.published_at) =
      some "2024/01/01" ∧
    sanitizeFilename "2024/01/01" = "2024_01_01" ∧
    (loadFromSaved slashTimestampSaved).published_at = "2024/01/01" := by
  decide

/-- Claim C8 as amended: on write, tag_name and name are sanitized, asset
names and local paths are sanitized, and plugin names are sanitized, but
the publish timestamp, asset download URLs and plugin release dates are
stored verbatim; on read, tag_name and asset names are re-sanitized while
the publish timestamp, download URLs and release dates are again kept
verbatim. -/
theorem save_load_resanitization (t : TagInfo) (path : String) (s : SavedTag)
    (h : saveTagInfoModel t = some (path, s)) :
    s.tag_name = sanitizeFilename t.tag_name ∧
    s.name = sanitizeFilename t.name ∧
    s.published_at = t.published_at ∧
    s.assets.map SavedAsset.name = t.assets.map (fun a => sanitizeFilename a.name) ∧
    s.assets.map SavedAsset.download_url = t.assets.map ReleaseAsset.download_url ∧
    s.assets.map SavedAsset.local_path =
      t.assets.map (fun a => sanitizeFilename a.local_path) ∧
    s.plugin_packages.map (fun p => p.2.name) =
      t.plugin_packages.map (fun p => sanitizeFilename p.2.name) ∧
    s.plugin_packages.map (fun p => p.2.release_date) =
      t.plugin_packages.map (fun p => p.2.release_date) ∧
    (loadFromSaved s).tag_name = sanitizeFilename s.tag_name ∧
    (loadFromSaved s).published_at = s.published_at ∧
    (loadFromSaved s).assets.map ReleaseAsset.name =
      s.assets.map (fun a => sanitizeFilename a.name) ∧
    (loadFromSaved s).assets.map ReleaseAsset.download_url =
      s.assets.map SavedAsset.download_url ∧
    (loadFromSaved s).plugin_packages.map (fun p => p.2.release_date) =
      s.plugin_packages.map (fun p => p.2.release_date) := by
  obtain ⟨hpath, hs⟩ := saveTagInfoModel_some t path s h
  subst hs
  refine ⟨rfl, rfl, rfl, ?_, ?_, ?_, ?_, ?_, rfl, rfl, ?_, ?_, ?_⟩ <;>
    simp [filterMap_total _ _ saveAssetEntry_total,
      filterMap_total _ _ savePluginEntry_total,
      filterMap_total _ _ loadAssetEntry_total,
      filterMap_total _ _ loadPluginEntry_total,
      loadFromSaved, List.map_map, Function.comp,
      writeAsset, writePlugin, readAsset, readPlugin]

/-- Witness for claim C8 as amended, at the record with a separator-laden
publish timestamp. -/
theorem save_load_resanitization_witness :
    saveTagInfoModel slashTimestampTag =
      some ("plugin_repo/v3.json", slashTimestampSaved) ∧
    slashTimestampSaved.published_at = slashTimestampTag.published_at :=
  ⟨by decide,
   (save_load_resanitization slashTimestampTag "plugin_repo/v3.json"
      slashTimestampSaved (by decide)).2.2.1⟩

/-- Claim C9 counterexample: calling startPeriodicScan while the scanner
is already running spawns a second worker (the spawn count reaches two)
and assigns into a joinable thread handle, triggering std::terminate, so
the no-second-worker guarantee fails on the code. -/
theorem start_while_running_spawns_second_worker :
    (startPeriodicScan (startPeriodicScan ⟨false, false, 0, false⟩)).spawnCount = 2 ∧
    (startPeriodicScan (startPeriodicScan ⟨false, false, 0, false⟩)).terminated = true := by
  decide

/-- Claim C9 as amended: stopPeriodicScan is idempotent when already
stopped, but startPeriodicScan has no running-state guard: invoked while
the worker runs, it spawns another worker and overwrites the joinable
thread handle. -/
theorem stop_idempotent_start_unguarded (s : ScanState) :
    stopPeriodicScan (stopPeriodicScan s) = stopPeriodicScan s ∧
    (s.running = true →
      (startPeriodicScan s).spawnCount = s.spawnCount + 1 ∧
      (startPeriodicScan s).terminated = true) := by
  constructor
  · rfl
  · intro h
    constructor
    · rfl
    · simp [startPeriodicScan, h]

/-- Witness for claim C9 as amended, at a running scanner state. -/
theorem stop_idempotent_start_unguarded_witness :
    stopPeriodicScan (stopPeriodicScan ⟨true, false, 1, false⟩) =
      stopPeriodicScan ⟨true, false, 1, false⟩ ∧
    ((startPeriodicScan ⟨true, false, 1, false⟩).spawnCount = 1 + 1 ∧
      (startPeriodicScan ⟨true, false, 1, false⟩).terminated = true) :=
  ⟨(stop_idempotent_start_unguarded ⟨true, false, 1, false⟩).1,
   (stop_idempotent_start_unguarded ⟨true, false, 1, false⟩).2 rfl⟩

/-- Claim C10: when the sanitized tag name is empty or absent from the
in-memory map, processTag fails without any download, extraction,
repackaging or persistence, leaves the tag map unchanged, writes no state
file and creates no package. -/
theorem invalid_or_unknown_tag_rejected (env : ProcEnv)
    (tags : List (String × TagInfo)) (t : String)
    (h : sanitizeFilename t = "" ∨ mapLookup (sanitizeFilename t) tags = none) :
    (processTag env tags t).ok = false ∧
    (processTag env tags t).tags = tags ∧
    (processTag env tags t).events.all (fun e => !isWorkEvent e) = true ∧
    (processTag env tags t).savedFiles = [] ∧
    (processTag env tags t).createdPackages = [] := by
  rcases h with h | h
  · exact absurd h (sanitizeFilename_ne_empty t)
  · simp only [processTag]
    rw [if_neg (sanitizeFilename_ne_empty t), h]
    exact ⟨rfl, rfl, rfl, rfl, rfl⟩

/-- Witness for claim C10, at a tag name absent from an empty store. -/
theorem invalid_or_unknown_tag_rejected_witness :
    (processTag inertEnv [] "ghost").ok = false ∧
    (processTag inertEnv [] "ghost").tags = [] ∧
    (processTag inertEnv [] "ghost").events.all (fun e => !isWorkEvent e) = true ∧
    (processTag inertEnv [] "ghost").savedFiles = [] ∧
    (processTag inertEnv [] "ghost").createdPackages = [] :=
  invalid_or_unknown_tag_rejected inertEnv [] "ghost" (Or.inr rfl)
